import Mathlib

/-!
Shallow embedding of the session/NAT-table engine of `ipsec/forward.go`
(package `ipsec` of bytejedi/ipsec-forward), together with theorems settling
the frozen claims C1..C10 about it.

Modelling conventions:
- `time.Time` / `time.Duration` are modelled as `Int` (nanoseconds); Go's
  integer division of a `Duration` by a constant truncates toward zero, which
  agrees with every division in this file because all operands are
  non-negative.
- the `sync.Map` field `Forwarder.clients` is modelled as an association list
  `List (String × Conn)`; each individual `Load` / `Store` / `Delete` /
  `LoadAndDelete` / `Range` is atomic, exactly as `sync.Map` guarantees.
- side effects (upstream dials, hook invocations, datagrams written upstream)
  are made observable as counters / event lists threaded through the state.
-/

/-- Connection state, embedding the `connection` struct of forward.go
(lines 13-17): `available chan struct{}` (a one-shot gate, closed exactly
once), `rConn *net.UDPConn` (nil until the dial succeeds), and
`lastActive time.Time`.  `gateOpen` is true once `close(available)` ran,
`established` is true once `rConn` is non-nil, `connClosed` is true once
`rConn.Close()` ran. -/
structure Conn where
  gateOpen : Bool
  established : Bool
  connClosed : Bool
  lastActive : Int
  deriving Repr, DecidableEq

/-- Observable state of one `Forwarder` (forward.go lines 19-31), restricted
to what the claims mention: the shutdown flag `closed`, the listening socket
(`listenerClosed` records whether `listenerConn.Close()` ran), the client
table, the configured idle `timeout`, and observable side-effect logs:
the number of `net.DialUDP` attempts, the arguments of the connect and
disconnect callbacks in invocation order, the number of datagrams written to
an upstream socket, and the number of handler goroutines blocked forever on a
gate that never opens. -/
structure FwdState where
  closed : Bool
  listenerClosed : Bool
  table : List (String × Conn)
  timeout : Int
  dialAttempts : Nat
  connectCbs : List String
  disconnectCbs : List String
  upstreamSends : Nat
  blockedWaiters : Nat
  deriving Repr, DecidableEq

/-- Embeds `sync.Map.Load` keyed by the client address string: the connection
currently stored for that key, if any. -/
def findConn (t : List (String × Conn)) (k : String) : Option Conn :=
  (t.find? (fun kv => kv.1 = k)).map (fun kv => kv.2)

/-- Embeds `sync.Map.Store`: replace the entry for the key if present,
otherwise insert it. -/
def storeConn (t : List (String × Conn)) (k : String) (c : Conn) :
    List (String × Conn) :=
  if (t.find? (fun kv => kv.1 = k)).isSome then
    t.map (fun kv => if kv.1 = k then (k, c) else kv)
  else
    t ++ [(k, c)]

/-- Embeds `sync.Map.Delete` / the removal part of `LoadAndDelete`: drop the
entry for the key (a `sync.Map` holds at most one entry per key). -/
def deleteKey (t : List (String × Conn)) (k : String) : List (String × Conn) :=
  t.filter (fun kv => ¬ kv.1 = k)

/-- Embeds the coarse `lastActive` refresh at forward.go lines 179-185 exactly
as written: `if client.lastActive.Before(time.Now().Add(f.timeout / 4)) {
client.lastActive = time.Now() }`, i.e. refresh whenever
`lastActive < now + timeout/4`.  (Note the `+`: the source adds `f.timeout/4`
to `time.Now()`, it does not subtract it.) -/
def refreshLastActive (lastActive now timeout : Int) : Int :=
  if lastActive < now + timeout / 4 then now else lastActive

/-- Embeds one sequential execution of `Forwarder.handle` (forward.go lines
108-187) for a datagram from client `cliAddr` arriving at time `now`, up to
(and not including) the upstream-receive loop of the creator.  The outcome of
`net.DialUDP` is supplied as the parameter `dialOk`.

Source order followed: `Load`; on miss build a pending `connection` (gate not
yet closed, `rConn` nil, `lastActive = now`) and `Store` it; then (still on
the miss path) dial; on dial error `Delete` the key and return (packet
dropped); on dial success set `rConn`, set `lastActive`, `close(available)`,
invoke `connectCallback`, and `WriteMsgUDP` the triggering datagram.  On a
hit, `<-client.available` (which blocks forever if the gate never opens),
then `WriteMsgUDP` the datagram and apply the coarse `lastActive` refresh
guarded by a re-`Load` of the key. -/
def handleOnce (s : FwdState) (cliAddr : String) (now : Int) (dialOk : Bool) :
    FwdState :=
  match findConn s.table cliAddr with
  | none =>
    let pending : Conn :=
      { gateOpen := false, established := false, connClosed := false,
        lastActive := now }
    let s1 : FwdState := { s with table := storeConn s.table cliAddr pending }
    if dialOk then
      let est : Conn :=
        { gateOpen := true, established := true, connClosed := false,
          lastActive := now }
      { s1 with
          table := storeConn s1.table cliAddr est,
          dialAttempts := s1.dialAttempts + 1,
          connectCbs := s1.connectCbs ++ [cliAddr],
          upstreamSends := s1.upstreamSends + 1 }
    else
      { s1 with
          dialAttempts := s1.dialAttempts + 1,
          table := deleteKey s1.table cliAddr }
  | some client =>
    if client.gateOpen then
      let s1 : FwdState := { s with upstreamSends := s.upstreamSends + 1 }
      match findConn s1.table cliAddr with
      | some _ =>
        { s1 with
            table := s1.table.map (fun kv =>
              if kv.1 = cliAddr then
                (kv.1, { kv.2 with
                  lastActive := refreshLastActive kv.2.lastActive now s.timeout })
              else kv) }
      | none => s1
    else
      { s with blockedWaiters := s.blockedWaiters + 1 }

/-- Embeds the error branch of the creator's upstream-receive loop
(forward.go lines 152-158): on a failed `ReadMsgUDP` the loop runs
`client.rConn.Close()`, `f.clients.Delete(cliAddr)`,
`f.disconnectCallback(cliAddr)` and returns — the disconnect callback is
invoked unconditionally, whether or not the entry was still in the table. -/
def relayReadError (s : FwdState) (cliAddr : String) : FwdState :=
  { s with
      table := deleteKey s.table cliAddr,
      disconnectCbs := s.disconnectCbs ++ [cliAddr] }

/-- Embeds the collection phase of `Forwarder.janitor` (forward.go lines
87-93): `Range` over the table collecting every key whose
`lastActive.Before(time.Now().Add(-f.timeout))`, i.e. `lastActive < now -
timeout`. -/
def collectIdle (t : List (String × Conn)) (now timeout : Int) : List String :=
  (t.filter (fun kv => kv.2.lastActive < now - timeout)).map (fun kv => kv.1)

/-- Embeds one full cycle of `Forwarder.janitor` (forward.go lines 84-104) at
logical time `now`: collect the idle keys, then `LoadAndDelete` each collected
key (closing its `rConn` when still present), then invoke the disconnect
callback for each collected key. -/
def janitorSweep (s : FwdState) (now : Int) : FwdState :=
  let keysToDelete := collectIdle s.table now s.timeout
  { s with
      table := keysToDelete.foldl deleteKey s.table,
      disconnectCbs := s.disconnectCbs ++ keysToDelete }

/-- Trace events of one janitor cycle, used to state the phase ordering of
forward.go lines 84-104. -/
inductive JEv where
  | sleepEv (d : Int)
  | deleteAndClose (k : String)
  | disconnectHook (k : String)
  deriving Repr, DecidableEq

/-- The event trace of one janitor cycle in source order (forward.go lines
85-104): `time.Sleep(f.timeout)`, then the delete-and-close loop over the
collected keys, then the disconnect-callback loop over the same keys. -/
def janitorCycleEvents (t : List (String × Conn)) (now timeout : Int) :
    List JEv :=
  JEv.sleepEv timeout ::
    ((collectIdle t now timeout).map JEv.deleteAndClose ++
     (collectIdle t now timeout).map JEv.disconnectHook)

/-- Embeds `Forwarder.Close` (forward.go lines 189-196): set the shutdown
flag, `Range` over the table closing every entry's `rConn`, close the
listening socket.  No table entry is deleted. -/
def closeForwarder (s : FwdState) : FwdState :=
  { s with
      closed := true,
      table := s.table.map (fun kv => (kv.1, { kv.2 with connClosed := true })),
      listenerClosed := true }

/-- Events of the creator path of `Forwarder.handle` (forward.go lines
120-150), used to state ordering claims about session establishment. -/
inductive HEv where
  | setRConn
  | setLastActive
  | gateOpen
  | connectHook
  | sendTrigger
  | relayLoop
  | logDialFail
  | deleteEntry
  | awaitGate
  | waiterSend
  deriving Repr, DecidableEq

/-- Source-order event trace of the creator's successful establishment path
(forward.go lines 137-146 and the loop head at line 148):
`client.rConn = rconn`; `client.lastActive = time.Now()`;
`close(client.available)`; `f.connectCallback(cliAddr)`;
`client.rConn.WriteMsgUDP(data, nil, nil)`; then the upstream-receive loop
starts. -/
def establishEvents : List HEv :=
  [HEv.setRConn, HEv.setLastActive, HEv.gateOpen, HEv.connectHook,
   HEv.sendTrigger, HEv.relayLoop]

/-- Source-order event trace of the creator's dial-failure path (forward.go
lines 131-135): `log.Println("failed to dial:", err)`;
`f.clients.Delete(cliAddr)`; `return`.  The gate `client.available` is never
closed on this path. -/
def dialFailEvents : List HEv :=
  [HEv.logDialFail, HEv.deleteEntry]

/-- Program-order events of a non-creating sender for the same key
(forward.go lines 171-177): block on `<-client.available`, then write the
datagram to the upstream socket. -/
def waiterEvents : List HEv :=
  [HEv.awaitGate, HEv.waiterSend]

/-- A concrete global schedule interleaving the creator's establishment path
with one non-creating sender: the waiter is released immediately after
`close(client.available)` and performs its upstream write before the creator
reaches its own `WriteMsgUDP` of the triggering datagram. -/
def gateRaceTrace : List HEv :=
  [HEv.setRConn, HEv.setLastActive, HEv.gateOpen, HEv.awaitGate,
   HEv.waiterSend, HEv.connectHook, HEv.sendTrigger, HEv.relayLoop]

/-- Per-handler control state for the concurrent first-packet race of
`Forwarder.handle` (forward.go lines 108-120).  `pc = 0`: about to run
`f.clients.Load(cliAddr)`; `pc = 1`: the `Load` missed, about to run
`f.clients.Store(cliAddr, value)` with a freshly allocated `connection`;
`pc = 2`: about to run `net.DialUDP`; `pc = 3`: past the modelled prefix
(either done dialing or, when the `Load` hit, gone to the waiter path). -/
structure HandlerCtl where
  pc : Nat
  sawMiss : Bool
  deriving Repr, DecidableEq

/-- Shared state for two concurrent `handle` goroutines processing first
packets from the same client address.  `occupied` is whether the `sync.Map`
holds an entry for that address, `created` counts `&connection{...}`
allocations, `stores` counts `Store` calls, `dials` counts `net.DialUDP`
attempts. -/
structure RaceState where
  occupied : Bool
  created : Nat
  stores : Nat
  dials : Nat
  h1 : HandlerCtl
  h2 : HandlerCtl
  deriving Repr, DecidableEq

/-- One atomic micro-step of one `handle` goroutine (forward.go lines
109-130).  Each `sync.Map` operation is individually atomic, matching the
`sync.Map` contract; the miss path of the source is `Load` (line 110), then
allocate-and-`Store` (lines 112-117), then dial gated on the same stale
`loaded` flag (lines 120-130). -/
def stepHandler (sh : RaceState × HandlerCtl) : RaceState × HandlerCtl :=
  let s := sh.1
  let c := sh.2
  match c.pc with
  | 0 =>
    if s.occupied then
      (s, { c with pc := 3, sawMiss := false })
    else
      ({ s with created := s.created + 1 }, { c with pc := 1, sawMiss := true })
  | 1 =>
    ({ s with occupied := true, stores := s.stores + 1 }, { c with pc := 2 })
  | 2 =>
    ({ s with dials := s.dials + 1 }, { c with pc := 3 })
  | _ => (s, c)

/-- Run one micro-step of handler 1 (`i = false`) or handler 2 (`i = true`). -/
def raceStep (s : RaceState) (i : Bool) : RaceState :=
  if i then
    let r := stepHandler (s, s.h2)
    { r.1 with h2 := r.2 }
  else
    let r := stepHandler (s, s.h1)
    { r.1 with h1 := r.2 }

/-- Initial race state: the address is unseen, both handler goroutines are
about to execute their `Load`. -/
def raceBegin : RaceState :=
  { occupied := false, created := 0, stores := 0, dials := 0,
    h1 := { pc := 0, sawMiss := false }, h2 := { pc := 0, sawMiss := false } }

/-- Execute a schedule of interleaved micro-steps from `raceBegin`. -/
def runSched (sched : List Bool) : RaceState :=
  sched.foldl raceStep raceBegin

/-- Embeds `net.IP.To4` from the Go standard library, on an IP stored as its
byte slice: a 4-byte slice is returned as is; a 16-byte slice with the
IPv4-in-IPv6 prefix (ten zero bytes then `0xff, 0xff`) is shortened to its
last 4 bytes; anything else yields `nil`, modelled as `none`. -/
def ipTo4 (ip : List Nat) : Option (List Nat) :=
  if ip.length = 4 then some ip
  else if ip.length = 16 ∧ ip.take 12 = [0, 0, 0, 0, 0, 0, 0, 0, 0, 0, 255, 255]
    then some (ip.drop 12)
  else none

/-- Embeds the loopback test `f.raddr.IP.To4()[0] == 127` of forward.go line
122.  Indexing a `nil` slice panics in Go; the panic is modelled as `none`. -/
def upstreamIsLoopback (ip : List Nat) : Option Bool :=
  match ipTo4 ip with
  | some v4 => (v4.get? 0).map (fun b => b = 127)
  | none => none

/-- A pure IPv6 address (2001:db8::1) in 16-byte form: its `To4()` is `nil`. -/
def ipv6Sample : List Nat :=
  [32, 1, 13, 184, 0, 0, 0, 0, 0, 0, 0, 0, 0, 0, 0, 1]

/-- Which background goroutines `Forward` has started. -/
structure StartEffects where
  janitorStarted : Bool
  runStarted : Bool
  deriving Repr, DecidableEq

/-- Embeds `Forward` (forward.go lines 42-68) with its three fallible
external calls as parameters: `net.ResolveUDPAddr("udp", src)`,
`net.ResolveUDPAddr("udp", dst)`, and `net.ListenUDP("udp", listenAddr)`
applied to the resolved listen address.  Addresses and sockets are abstracted
to `Nat` handles.  Source order: resolve `src` (return the error on failure),
resolve `dst` (return the error on failure), bind the listen socket (return
the error on failure), then start the `janitor` and `run` goroutines and
return the forwarder, modelled as its `(raddr, listenerConn)` pair. -/
def forwardStart (resolveSrc resolveDst : Except String Nat)
    (listenUDP : Nat → Except String Nat) :
    Except String (Nat × Nat) × StartEffects :=
  match resolveSrc with
  | Except.error e => (Except.error e, ⟨false, false⟩)
  | Except.ok listenAddr =>
    match resolveDst with
    | Except.error e => (Except.error e, ⟨false, false⟩)
    | Except.ok raddr =>
      match listenUDP listenAddr with
      | Except.error e => (Except.error e, ⟨false, false⟩)
      | Except.ok conn => (Except.ok (raddr, conn), ⟨true, true⟩)

/-- Classifier for janitor-cycle events: true exactly on disconnect-hook
invocations. -/
def isDisconnectHook : JEv → Bool
  | JEv.disconnectHook _ => true
  | _ => false

/-- Sample forwarder state for exercising the janitor cycle: "a" idle since
time 0, "b" active at time 100. -/
def c7State : FwdState :=
  { closed := false, listenerClosed := false,
    table := [("a", { gateOpen := true, established := true,
                      connClosed := false, lastActive := 0 }),
              ("b", { gateOpen := true, established := true,
                      connClosed := false, lastActive := 100 })],
    timeout := 10, dialAttempts := 2, connectCbs := ["a", "b"],
    disconnectCbs := [], upstreamSends := 2, blockedWaiters := 0 }


/-- Helper facts about `deleteKey`: looking up the deleted key fails. -/
theorem findConn_deleteKey (t : List (String × Conn)) (k : String) :
    findConn (deleteKey t k) k = none := by
  induction t with
  | nil => rfl
  | cons kv t ih =>
    by_cases h : kv.1 = k
    · simpa [deleteKey, findConn, h] using ih
    · simpa [deleteKey, findConn, List.filter_cons, List.find?, h] using ih

/-- Folding `deleteKey` over a list of keys is table filtering: exactly the
entries whose key is not in the list survive. -/
theorem foldl_deleteKey (keys : List String) (t : List (String × Conn)) :
    keys.foldl deleteKey t = t.filter (fun kv => ¬ kv.1 ∈ keys) := by
  induction keys generalizing t with
  | nil => simp
  | cons k ks ih =>
    rw [List.foldl_cons, ih]
    rw [deleteKey, List.filter_filter]
    apply List.filter_congr
    intro kv _
    by_cases h1 : kv.1 = k <;> by_cases h2 : kv.1 ∈ ks <;> simp [h1, h2]

/-- C1.  For every client address, when multiple handlers run concurrently for
first packets from that same address, the claim says exactly one of them acts
as the session's creator, with exactly one Session in the table and exactly
one upstream dial.  The `handle` prologue (forward.go lines 109-130) is
`Load` followed by a separate `Store`, not an atomic `LoadOrStore`, so under
the interleaving Load1, Load2, Store1, Store2, Dial1, Dial2 both goroutines
see a miss: two `connection` objects are allocated, two `Store` calls run
(the second overwriting the first), and two upstream dials are attempted —
while the sequential schedule Load1, Store1, Dial1, Load2 yields exactly one
dial, confirming the model's fidelity. -/
theorem handle_create_race_two_dials :
    (runSched [false, true, false, true, false, true]).dials = 2 ∧
    (runSched [false, true, false, true, false, true]).created = 2 ∧
    (runSched [false, true, false, true, false, true]).stores = 2 ∧
    (runSched [false, false, false, true]).dials = 1 ∧
    (runSched [false, false, false, true]).created = 1 := by
  decide

/-- C2 counterexample.  The claim says the triggering datagram is written to
the upstream socket strictly before the readiness gate is opened; in the
establishment path of forward.go (lines 137-146) it is not:
`close(client.available)` precedes `client.rConn.WriteMsgUDP(data, ...)`. -/
theorem trigger_not_sent_before_gate :
    ¬ (establishEvents.indexOf HEv.sendTrigger <
       establishEvents.indexOf HEv.gateOpen) := by
  decide

/-- C2 amended.  In the creator's establishment path the readiness gate is
opened strictly before the triggering datagram is written upstream, and
consequently there is a schedule — respecting the creator's program order,
the waiter's program order, and the rule that a waiter passes the gate only
after it opens — in which a datagram that waited on the gate is forwarded
upstream ahead of the triggering datagram. -/
theorem gate_opens_before_trigger_send :
    establishEvents.indexOf HEv.gateOpen <
      establishEvents.indexOf HEv.sendTrigger ∧
    List.Sublist establishEvents gateRaceTrace ∧
    List.Sublist waiterEvents gateRaceTrace ∧
    gateRaceTrace.length = establishEvents.length + waiterEvents.length ∧
    gateRaceTrace.indexOf HEv.gateOpen < gateRaceTrace.indexOf HEv.awaitGate ∧
    gateRaceTrace.indexOf HEv.waiterSend <
      gateRaceTrace.indexOf HEv.sendTrigger := by
  decide

/-- C3.  The claim says `lastActive` is refreshed only when more than
`timeout/4` has elapsed since the previous refresh.  The source condition
(forward.go line 182) is `lastActive.Before(time.Now().Add(f.timeout / 4))`,
i.e. `lastActive < now + timeout/4` — the offset is added instead of
subtracted — so with `lastActive = 9`, `now = 10`, `timeout = 100` only 1 has
elapsed (far less than `timeout/4 = 25`) yet the timestamp is refreshed to
10, both in the raw refresh policy and through the full established-session
handler path. -/
theorem refresh_fires_below_quarter_timeout :
    refreshLastActive 9 10 100 = 10 ∧
    ¬ ((10 : Int) - 9 > 100 / 4) ∧
    (findConn
      (handleOnce
        { closed := false, listenerClosed := false,
          table := [("k", { gateOpen := true, established := true,
                            connClosed := false, lastActive := 9 })],
          timeout := 100, dialAttempts := 1, connectCbs := ["k"],
          disconnectCbs := [], upstreamSends := 1, blockedWaiters := 0 }
        "k" 10 true).table "k").map Conn.lastActive = some 10 := by
  decide

/-- C5 counterexample.  The claim says the readiness gate is opened both on
successful establishment and on dial failure; on the dial-failure path of
forward.go (lines 131-135) the events are log, `Delete`, `return` — the gate
is never opened there. -/
theorem gate_not_opened_on_dial_failure :
    ¬ HEv.gateOpen ∈ dialFailEvents := by
  decide

/-- C5 amended.  The readiness gate is opened only when the creator completes
establishment: `close(client.available)` occurs in the success path and the
dial-failure path only deletes the table entry without ever opening the gate,
so a non-creating sender already blocked on that session's gate is never
released by the failed attempt. -/
theorem gate_opened_only_on_success :
    HEv.gateOpen ∈ establishEvents ∧
    ¬ HEv.gateOpen ∈ dialFailEvents ∧
    HEv.deleteEntry ∈ dialFailEvents := by
  decide

/-- C6.  The claim says the disconnect hook fires exactly once for a session
evicted for idleness.  Concretely: one established session for key "k", idle
past the timeout, whose relay loop is blocked in `ReadMsgUDP`.  The janitor
cycle evicts "k" and closes its upstream socket (firing the hook once); the
closed socket makes the relay loop's pending read fail, and its error branch
(forward.go lines 152-158) unconditionally fires the hook again — two
invocations for the same session. -/
theorem disconnect_hook_fires_twice_on_eviction :
    ((janitorSweep
        { closed := false, listenerClosed := false,
          table := [("k", { gateOpen := true, established := true,
                            connClosed := false, lastActive := 0 })],
          timeout := 10, dialAttempts := 1, connectCbs := ["k"],
          disconnectCbs := [], upstreamSends := 1, blockedWaiters := 0 }
        100).disconnectCbs.count "k" = 1) ∧
    ((relayReadError
        (janitorSweep
          { closed := false, listenerClosed := false,
            table := [("k", { gateOpen := true, established := true,
                              connClosed := false, lastActive := 0 })],
            timeout := 10, dialAttempts := 1, connectCbs := ["k"],
            disconnectCbs := [], upstreamSends := 1, blockedWaiters := 0 }
          100) "k").disconnectCbs.count "k" = 2) := by
  decide

/-- C4.  For a fresh client address whose upstream dial fails, `handle` stores
a pending entry, dials, and on failure deletes the entry and returns: the
table holds nothing for that address afterwards, no datagram was written
upstream, no connect callback ran (no session established), exactly one dial
was attempted, and a subsequent packet from the same address misses the table
again and performs a fresh dial attempt of its own. -/
theorem dial_failure_isolation (s : FwdState) (cliAddr : String) (now : Int)
    (h : findConn s.table cliAddr = none) :
    findConn (handleOnce s cliAddr now false).table cliAddr = none ∧
    (handleOnce s cliAddr now false).upstreamSends = s.upstreamSends ∧
    (handleOnce s cliAddr now false).connectCbs = s.connectCbs ∧
    (handleOnce s cliAddr now false).dialAttempts = s.dialAttempts + 1 ∧
    ∀ now2 dialOk2,
      (handleOnce (handleOnce s cliAddr now false) cliAddr now2
        dialOk2).dialAttempts = s.dialAttempts + 2 := by
  have hdel : findConn (deleteKey (storeConn s.table cliAddr
      { gateOpen := false, established := false, connClosed := false,
        lastActive := now }) cliAddr) cliAddr = none := findConn_deleteKey _ _
  refine ⟨?_, ?_, ?_, ?_, ?_⟩
  · simpa [handleOnce, h] using hdel
  · simp [handleOnce, h]
  · simp [handleOnce, h]
  · simp [handleOnce, h]
  · intro now2 dialOk2
    cases dialOk2 <;> simp [handleOnce, h, hdel]

/-- C4 witness: the dial-failure isolation theorem applied to the empty
forwarder state and client "c". -/
theorem dial_failure_isolation_witness :
    findConn (handleOnce
      { closed := false, listenerClosed := false, table := [], timeout := 10,
        dialAttempts := 0, connectCbs := [], disconnectCbs := [],
        upstreamSends := 0, blockedWaiters := 0 } "c" 3 false).table "c" =
      none ∧
    (handleOnce (handleOnce
      { closed := false, listenerClosed := false, table := [], timeout := 10,
        dialAttempts := 0, connectCbs := [], disconnectCbs := [],
        upstreamSends := 0, blockedWaiters := 0 } "c" 3 false) "c" 5
      true).dialAttempts = 0 + 2 := by
  have h := dial_failure_isolation
    { closed := false, listenerClosed := false, table := [], timeout := 10,
      dialAttempts := 0, connectCbs := [], disconnectCbs := [],
      upstreamSends := 0, blockedWaiters := 0 } "c" 3 (by decide)
  exact ⟨h.1, h.2.2.2.2 5 true⟩

/-- A boolean list of the shape falses-then-trues admits no `[true, false]`
subsequence. -/
theorem no_true_false_sub_replicate (n m : Nat) :
    ¬ List.Sublist [true, false]
      (List.replicate n false ++ List.replicate m true) := by
  induction n with
  | zero =>
    intro h
    have hf : false ∈ List.replicate m true := by
      apply h.subset
      simp
    exact absurd (List.eq_of_mem_replicate hf) (by simp)
  | succ n ih =>
    intro h
    rw [List.replicate_succ, List.cons_append] at h
    cases h with
    | cons _ h2 => exact ih h2

/-- C7.  One janitor cycle: the cycle begins with `time.Sleep` of exactly the
configured timeout (the reaper's fixed period); the collected keys are
exactly those whose `lastActive` is older than `now - timeout`; the
delete-and-close phase leaves exactly the non-collected entries in the table;
the disconnect hook is invoked for exactly the collected keys; and no
disconnect-hook event ever precedes a delete-and-close event in the cycle's
trace. -/
theorem janitor_cycle_spec (s : FwdState) (now : Int) :
    (janitorCycleEvents s.table now s.timeout).head? =
      some (JEv.sleepEv s.timeout) ∧
    (∀ k, k ∈ collectIdle s.table now s.timeout ↔
      ∃ c, (k, c) ∈ s.table ∧ c.lastActive < now - s.timeout) ∧
    (janitorSweep s now).table =
      s.table.filter (fun kv => ¬ kv.1 ∈ collectIdle s.table now s.timeout) ∧
    (janitorSweep s now).disconnectCbs =
      s.disconnectCbs ++ collectIdle s.table now s.timeout ∧
    ∀ k k2, ¬ List.Sublist [JEv.disconnectHook k, JEv.deleteAndClose k2]
      (janitorCycleEvents s.table now s.timeout) := by
  refine ⟨rfl, ?_, ?_, rfl, ?_⟩
  · intro k
    constructor
    · intro hk
      simp only [collectIdle, List.mem_map, List.mem_filter] at hk
      obtain ⟨kv, ⟨hmem, hlt⟩, hfst⟩ := hk
      exact ⟨kv.2, by rw [← hfst]; exact hmem, by simpa using hlt⟩
    · intro hk
      obtain ⟨c, hmem, hlt⟩ := hk
      simp only [collectIdle, List.mem_map, List.mem_filter]
      exact ⟨(k, c), ⟨hmem, by simpa using hlt⟩, rfl⟩
  · simp [janitorSweep, foldl_deleteKey]
  · intro k k2 h
    have h2 := h.map isDisconnectHook
    have hmap : (janitorCycleEvents s.table now s.timeout).map
        isDisconnectHook =
        List.replicate ((collectIdle s.table now s.timeout).length + 1) false
          ++ List.replicate (collectIdle s.table now s.timeout).length true := by
      have ha : isDisconnectHook ∘ JEv.deleteAndClose =
          (fun _ : String => false) := rfl
      have hb : isDisconnectHook ∘ JEv.disconnectHook =
          (fun _ : String => true) := rfl
      simp [janitorCycleEvents, List.map_map, ha, hb,
        List.replicate_succ, List.map_const', isDisconnectHook]
    rw [hmap] at h2
    exact no_true_false_sub_replicate _ _ h2

/-- C7 witness: the janitor-cycle theorem applied at time 105 to `c7State`,
where only "a" is idle beyond the timeout. -/
theorem janitor_cycle_spec_witness :
    "a" ∈ collectIdle c7State.table 105 c7State.timeout ∧
    (janitorSweep c7State 105).table =
      c7State.table.filter
        (fun kv => ¬ kv.1 ∈ collectIdle c7State.table 105 c7State.timeout) ∧
    ¬ List.Sublist [JEv.disconnectHook "a", JEv.deleteAndClose "a"]
      (janitorCycleEvents c7State.table 105 c7State.timeout) := by
  have h := janitor_cycle_spec c7State 105
  exact ⟨(h.2.1 "a").mpr
      ⟨{ gateOpen := true, established := true, connClosed := false,
         lastActive := 0 }, by decide, by decide⟩,
    h.2.2.1, h.2.2.2.2 "a" "a"⟩

/-- C8.  `Forward` reports each startup failure to the caller and leaves no
partial state running: if the listen-address resolution fails, if the
upstream-address resolution fails, or if the listen-socket bind fails, the
failing step's error is returned, no forwarder is returned, and neither the
janitor goroutine nor the ingress-loop goroutine is started. -/
theorem forward_startup_failure (rs rd : Except String Nat)
    (lu : Nat → Except String Nat) (e : String) :
    (rs = Except.error e →
      forwardStart rs rd lu = (Except.error e, ⟨false, false⟩)) ∧
    (∀ a, rs = Except.ok a → rd = Except.error e →
      forwardStart rs rd lu = (Except.error e, ⟨false, false⟩)) ∧
    (∀ a b, rs = Except.ok a → rd = Except.ok b → lu a = Except.error e →
      forwardStart rs rd lu = (Except.error e, ⟨false, false⟩)) := by
  refine ⟨?_, ?_, ?_⟩
  · intro h1
    subst h1
    rfl
  · intro a h1 h2
    subst h1
    subst h2
    rfl
  · intro a b h1 h2 h3
    subst h1
    subst h2
    simp [forwardStart, h3]

/-- C8 witness: the startup-failure theorem applied to a failing
listen-address resolution. -/
theorem forward_startup_failure_witness :
    forwardStart (Except.error "bad src") (Except.ok 1)
      (fun _ => Except.ok 2) = (Except.error "bad src", ⟨false, false⟩) :=
  (forward_startup_failure (Except.error "bad src") (Except.ok 1)
    (fun _ => Except.ok 2) "bad src").1 rfl

/-- C9.  `Close` sets the shutdown flag, closes every session's upstream
socket, and closes the listening socket, while removing no entry from the
session table: the key list (and entry count) is unchanged, and the
disconnect callbacks are untouched. -/
theorem close_forwarder_spec (s : FwdState) :
    (closeForwarder s).closed = true ∧
    (closeForwarder s).listenerClosed = true ∧
    ((closeForwarder s).table.all (fun kv => kv.2.connClosed)) = true ∧
    (closeForwarder s).table.map Prod.fst = s.table.map Prod.fst ∧
    (closeForwarder s).table.length = s.table.length ∧
    (closeForwarder s).disconnectCbs = s.disconnectCbs := by
  refine ⟨rfl, rfl, ?_, ?_, by simp [closeForwarder], rfl⟩
  · simp [closeForwarder, List.all_eq_true]
  · simp [closeForwarder, List.map_map]

/-- C9 witness: `Close` applied to a forwarder with one open session. -/
theorem close_forwarder_spec_witness :
    (closeForwarder
      { closed := false, listenerClosed := false,
        table := [("k", { gateOpen := true, established := true,
                          connClosed := false, lastActive := 7 })],
        timeout := 10, dialAttempts := 1, connectCbs := ["k"],
        disconnectCbs := [], upstreamSends := 3,
        blockedWaiters := 0 }).table.map Prod.fst = ["k"] :=
  (close_forwarder_spec
    { closed := false, listenerClosed := false,
      table := [("k", { gateOpen := true, established := true,
                        connClosed := false, lastActive := 7 })],
      timeout := 10, dialAttempts := 1, connectCbs := ["k"],
      disconnectCbs := [], upstreamSends := 3,
      blockedWaiters := 0 }).2.2.2.1

/-- Whenever `To4()` yields a slice, that slice has length 4 (forward.go line
122 relies on this in bounds-safety terms). -/
theorem ipTo4_length (ip v4 : List Nat) (h : ipTo4 ip = some v4) :
    v4.length = 4 := by
  unfold ipTo4 at h
  split at h
  · cases h
    assumption
  · split at h
    · cases h
      rename_i hc
      rw [List.length_drop, hc.1]
    · cases h

/-- C10 counterexample.  The claim says the handler never dereferences a nil
slice when dialing, including when the upstream address resolves to a pure
IPv6 address; for the pure IPv6 address 2001:db8::1, `To4()` is nil and
`f.raddr.IP.To4()[0]` (forward.go line 122) panics — modelled as the absence
of a result. -/
theorem loopback_test_panics_on_ipv6 :
    (upstreamIsLoopback ipv6Sample).isSome = false := by
  decide

/-- C10 amended.  Whenever the upstream IP has a 4-byte form (every IPv4 or
IPv4-mapped address), `To4()[0]` is in bounds and the loopback test of
forward.go line 122 produces a value; for a pure IPv6 upstream address,
`To4()` is nil and the indexing panics, as witnessed by 2001:db8::1. -/
theorem loopback_test_safe_iff_ipv4 (ip : List Nat) :
    ((ipTo4 ip).isSome = true → (upstreamIsLoopback ip).isSome = true) ∧
    upstreamIsLoopback ipv6Sample = none := by
  constructor
  · intro h
    match hip : ipTo4 ip with
    | none => rw [hip] at h; simp at h
    | some v4 =>
      have hv : v4.length = 4 := ipTo4_length ip v4 hip
      match v4, hv with
      | a :: rest, _ => simp [upstreamIsLoopback, hip]
  · decide

/-- C10 witness: the amended theorem applied to the IPv4 loopback address
127.0.0.1. -/
theorem loopback_test_safe_iff_ipv4_witness :
    (ipTo4 [127, 0, 0, 1]).isSome = true ∧
    (upstreamIsLoopback [127, 0, 0, 1]).isSome = true :=
  ⟨by decide, (loopback_test_safe_iff_ipv4 [127, 0, 0, 1]).1 (by decide)⟩
